import Mathlib

/-!
Verification of the token-lifecycle core of the microsoft-todo-mcp-server
repository: a shallow embedding of `TokenManager` (`getTokens`, `refreshToken`,
`saveTokens`, `promptForReauth` in `src/token-manager.ts`) and of the
authenticated request helper `makeGraphRequest` (in `src/todo-index.ts`),
with proofs of the specified properties.

Modelling conventions:
- `Date.now()` is modelled by a clock function `time : Nat → Int` indexed by a
  tick counter in the state; each call to `dateNow` consumes one tick, in the
  order the source calls `Date.now()`.
- The filesystem is modelled at the record level: a file is absent, corrupt
  (JSON.parse throws), or holds a parsed credential record.  The textual
  JSON round trip performed by `saveTokens`/`JSON.parse` is modelled
  separately by `serializeTokens`/`parseTokens` over a JSON value type.
- Console logging is not modelled except for `promptForReauth`, which records
  the token-storage path named in its message (`promptedPaths`).
- Effect counters (`canonicalReads`, `legacyReads`, `refreshCalls`,
  `refreshHttpCalls`) count, respectively, reads of the canonical token file,
  reads of the legacy token file, invocations of `refreshToken`, and HTTP
  requests to the identity provider's token endpoint.
- JavaScript truthiness of strings (empty string is falsy) is modelled by
  `isTruthy` / `jsOr` / `jsOrStr`, mirroring the `a || b` chains in the source.
- The `updateClaudeConfig` side write is best-effort and touches no state the
  claims mention; it is not modelled.
-/

/-- `StoredTokenData` from `src/token-manager.ts`: `TokenData`
(`accessToken`, `refreshToken`, `expiresAt`) plus the optional
`clientId`/`clientSecret`/`tenantId` used for refreshes. -/
structure StoredTokenData where
  accessToken : String
  refreshToken : String
  expiresAt : Int
  clientId : Option String := none
  clientSecret : Option String := none
  tenantId : Option String := none
deriving Repr, DecidableEq

/-- Content of a token file: either syntactically invalid (JSON.parse throws)
or a parsed credential record. -/
inductive FileData where
  | corrupt
  | record (r : StoredTokenData)
deriving Repr, DecidableEq

/-- The two token-file locations the manager consults: the canonical per-user
config path (`this.tokenFilePath`) and the legacy path (`process.cwd()`). -/
structure FS where
  canonical : Option FileData
  legacy : Option FileData
deriving Repr, DecidableEq

/-- `process.env` fields consumed by the token manager. `none` models an
unset variable; `some ""` models a set-but-empty (hence falsy) variable. -/
structure Env where
  MS_TODO_ACCESS_TOKEN : Option String
  MS_TODO_REFRESH_TOKEN : Option String
  CLIENT_ID : Option String
  CLIENT_SECRET : Option String
  TENANT_ID : Option String
deriving Repr, DecidableEq

/-- Response of the identity provider's token endpoint as consumed by
`refreshToken`: network failure (fetch throws), non-ok HTTP status with the
error body, or a parsed JSON success carrying `access_token`,
optional `refresh_token`, and `expires_in` (seconds). -/
inductive RefreshResponse where
  | netError
  | httpError (body : String)
  | ok (access_token : String) (refresh_token : Option String) (expires_in : Int)
deriving Repr, DecidableEq

/-- A refresh outcome that yields no new tokens (network failure or non-ok
status from the token endpoint). -/
def RefreshResponse.failing : RefreshResponse → Bool
  | .ok _ _ _ => false
  | _ => true

/-- Process state threaded through the token manager: the clock, the
`currentTokens` in-memory cache, the filesystem, the `tokenFilePath`, and the
observational effect counters. -/
structure St where
  time : Nat → Int
  tick : Nat
  currentTokens : Option StoredTokenData
  fs : FS
  tokenFilePath : String
  canonicalReads : Nat
  legacyReads : Nat
  refreshCalls : Nat
  refreshHttpCalls : Nat
  promptedPaths : List String

/-- One call to `Date.now()`: returns the current clock reading and advances
the tick counter. -/
def dateNow (s : St) : Int × St :=
  (s.time s.tick, { s with tick := s.tick + 1 })

/-- JavaScript truthiness of an optional string: unset and empty are falsy. -/
def isTruthy : Option String → Bool
  | none => false
  | some s => decide (s ≠ "")

/-- JavaScript `a || b` on optional strings (empty string falls through). -/
def jsOr (a b : Option String) : Option String :=
  match a with
  | none => b
  | some s => if s = "" then b else some s

/-- JavaScript `a || b` where the fallback is a plain string
(models `data.refresh_token || refreshToken`). -/
def jsOrStr (a : Option String) (b : String) : String :=
  match a with
  | none => b
  | some s => if s = "" then b else s

/-- `saveTokens(tokens)`: sets `this.currentTokens` and overwrites the
canonical token file with the record. -/
def saveTokens (t : StoredTokenData) (s : St) : St :=
  { s with currentTokens := some t,
           fs := { s.fs with canonical := some (FileData.record t) } }

/-- `promptForReauth()`: prints the re-authentication message, which names
`this.tokenFilePath`; modelled as recording that path. -/
def promptForReauth (s : St) : St :=
  { s with promptedPaths := s.promptedPaths ++ [s.tokenFilePath] }

/-- `TokenManager.refreshToken(refreshToken)`: resolves client credentials
from the cached record or the environment (falsy-chained); returns `null`
without any network call when `clientId`/`clientSecret` are unavailable; on a
non-ok endpoint response (or a thrown fetch) prompts for re-authentication and
returns `null`; on success builds the new record (retaining the old refresh
token when the response omits one), applies the 5-minute buffer to
`expires_in`, saves it, and returns it.  The function never throws: the
source wraps its whole body in try/catch and returns `null` from the catch. -/
def refreshTokenM (env : Env) (resp : RefreshResponse) (rt : String) (s : St) :
    Option StoredTokenData × St :=
  let s := { s with refreshCalls := s.refreshCalls + 1 }
  let clientId := jsOr (s.currentTokens.bind (fun t => t.clientId)) env.CLIENT_ID
  let clientSecret := jsOr (s.currentTokens.bind (fun t => t.clientSecret)) env.CLIENT_SECRET
  let tenantId :=
    jsOr (jsOr (s.currentTokens.bind (fun t => t.tenantId)) env.TENANT_ID) (some "organizations")
  if isTruthy clientId = false ∨ isTruthy clientSecret = false then
    (none, s)
  else
    let s := { s with refreshHttpCalls := s.refreshHttpCalls + 1 }
    match resp with
    | .netError => (none, promptForReauth s)
    | .httpError _ => (none, promptForReauth s)
    | .ok accessTok newRt expiresIn =>
      let (now, s) := dateNow s
      let newTokens : StoredTokenData :=
        { accessToken := accessTok,
          refreshToken := jsOrStr newRt rt,
          expiresAt := now + expiresIn * 1000 - 5 * 60 * 1000,
          clientId := clientId,
          clientSecret := clientSecret,
          tenantId := tenantId }
      let s := saveTokens newTokens s
      (some newTokens, s)

/-- The environment token pair, present exactly when both
`MS_TODO_ACCESS_TOKEN` and `MS_TODO_REFRESH_TOKEN` are truthy. -/
def envPair (env : Env) : Option (String × String) :=
  match env.MS_TODO_ACCESS_TOKEN, env.MS_TODO_REFRESH_TOKEN with
  | some a, some r => if a = "" ∨ r = "" then none else some (a, r)
  | _, _ => none

/-- Step 3 of `getTokens()`: the legacy token file at `process.cwd()`.
A readable record is migrated to the canonical location via `saveTokens`
and returned as-is; a corrupt file is caught and the function returns
`null`. -/
def getTokensLegacy (s : St) : Option StoredTokenData × St :=
  match s.fs.legacy with
  | some fd =>
    let s := { s with legacyReads := s.legacyReads + 1 }
    match fd with
    | .corrupt => (none, s)
    | .record r => (some r, saveTokens r s)
  | none => (none, s)

/-- `TokenManager.getTokens()`: tries the environment pair (assumed 1-hour
lifetime, refresh attempted when the expiry check fires, the environment
record returned when the refresh yields nothing), then the canonical token
file (cached into `currentTokens`, refresh attempted when expired, the cached
stale record returned when the refresh yields nothing; a corrupt file is
caught and falls through), then the legacy file; `null` when no source
yields a record. -/
def getTokens (env : Env) (resp : RefreshResponse) (s : St) :
    Option StoredTokenData × St :=
  match envPair env with
  | some (accessTok, refreshTok) =>
    let (n1, s) := dateNow s
    let envTokens : StoredTokenData :=
      { accessToken := accessTok, refreshToken := refreshTok,
        expiresAt := n1 + 3600 * 1000 }
    let (n2, s) := dateNow s
    if n2 > envTokens.expiresAt then
      match refreshTokenM env resp refreshTok s with
      | (some refreshed, s) => (some refreshed, s)
      | (none, s) => (some envTokens, s)
    else
      (some envTokens, s)
  | none =>
    match s.fs.canonical with
    | some fd =>
      let s := { s with canonicalReads := s.canonicalReads + 1 }
      match fd with
      | .corrupt => getTokensLegacy s
      | .record r =>
        let s := { s with currentTokens := some r }
        let (now, s) := dateNow s
        if now > r.expiresAt then
          match refreshTokenM env resp r.refreshToken s with
          | (some refreshed, s) => (some refreshed, s)
          | (none, s) => (s.currentTokens, s)
        else
          (s.currentTokens, s)
    | none => getTokensLegacy s

/-! ### Authenticated request client (`makeGraphRequest` in `src/todo-index.ts`) -/

/-- An HTTP response from the Graph API as consumed by `makeGraphRequest`:
status code and body text. -/
structure Response where
  status : Nat
  body : String
deriving Repr, DecidableEq

/-- `response.ok` of the Fetch API: status in the range 200–299. -/
def respOk (r : Response) : Bool :=
  decide (200 ≤ r.status ∧ r.status ≤ 299)

/-- `needle` occurs at the head of `hay`. -/
def leadsWith : List Char → List Char → Bool
  | [], _ => true
  | _ :: _, [] => false
  | a :: as, b :: bs => a = b && leadsWith as bs

/-- `needle` occurs somewhere in `hay`. -/
def hasSubstr (needle : List Char) : List Char → Bool
  | [] => leadsWith needle []
  | c :: rest => leadsWith needle (c :: rest) || hasSubstr needle rest

/-- JavaScript `s.includes(sub)` on strings. -/
def strIncludes (s sub : String) : Bool :=
  hasSubstr sub.data s.data

/-- Outcome of `makeGraphRequest` before the outer catch converts thrown
errors to `null`: a parsed success body, the empty success marker for
`DELETE`, the distinguished personal-account capability error, or the
generic HTTP error carrying status and body. -/
inductive GraphOutcome where
  | success (body : String)
  | deleteSuccess
  | accountCapabilityError
  | httpError (status : Nat) (body : String)
deriving Repr, DecidableEq

/-- The retry guard `newToken && newToken !== token` after a 401: the token
manager returned a truthy token different from the one already used. -/
def newTokenUsable (newTok : Option String) (token : String) : Bool :=
  match newTok with
  | none => false
  | some nt => decide (nt ≠ "" ∧ nt ≠ token)

/-- The 401-retry step of `makeGraphRequest`: given the fetch oracle `fr`
(response to the n-th HTTP call), the initial bearer token, and the token the
manager returns after a 401 (`newTok`, `none` when `getAccessToken()` yields
null), produces the response the rest of the function examines together with
the number of HTTP calls made (1 or 2). A non-401 first response is used
directly; a 401 is retried exactly once when a usable different token is
obtained, else kept. -/
def select401 (fr : Nat → Response) (token : String) (newTok : Option String) :
    Response × Nat :=
  let r0 := fr 0
  if r0.status = 401 then
    if newTokenUsable newTok token then (fr 1, 2) else (r0, 1)
  else
    (r0, 1)

/-- `makeGraphRequest(url, token, method, body?)`, modelled over the fetch
oracle: performs the first call, handles a 401 via `select401`, then
classifies the selected response — non-ok bodies containing
`"MailboxNotEnabledForRESTAPI"` become the distinguished capability error,
other non-ok responses the generic HTTP error; a `DELETE` success returns the
empty marker without parsing a body; otherwise the parsed body is returned.
The second component is the number of HTTP calls made. -/
def makeGraphRequest (fr : Nat → Response) (token : String) (method : String)
    (newTok : Option String) : GraphOutcome × Nat :=
  let sel := select401 fr token newTok
  let resp := sel.1
  let calls := sel.2
  if respOk resp = false then
    if strIncludes resp.body "MailboxNotEnabledForRESTAPI" then
      (GraphOutcome.accountCapabilityError, calls)
    else
      (GraphOutcome.httpError resp.status resp.body, calls)
  else if method = "DELETE" then
    (GraphOutcome.deleteSuccess, calls)
  else
    (GraphOutcome.success resp.body, calls)

/-! ### JSON round trip of the token file
(`JSON.stringify` in `saveTokens` / `JSON.parse` in `getTokens`) -/

/-- JSON values as needed for the token file. -/
inductive Json where
  | str (s : String)
  | num (n : Int)
  | obj (fields : List (String × Json))
deriving Repr

/-- First field with the given key, as JavaScript property lookup. -/
def jsonLookup (fields : List (String × Json)) (key : String) : Option Json :=
  match fields with
  | [] => none
  | (k, v) :: rest => if k = key then some v else jsonLookup rest key

/-- `JSON.stringify(tokens)`: the record's fields in declaration order;
fields holding `undefined` (the absent optionals) are omitted. -/
def serializeTokens (t : StoredTokenData) : Json :=
  Json.obj
    ([("accessToken", Json.str t.accessToken),
      ("refreshToken", Json.str t.refreshToken),
      ("expiresAt", Json.num t.expiresAt)]
     ++ (match t.clientId with
         | some c => [("clientId", Json.str c)]
         | none => [])
     ++ (match t.clientSecret with
         | some c => [("clientSecret", Json.str c)]
         | none => [])
     ++ (match t.tenantId with
         | some c => [("tenantId", Json.str c)]
         | none => []))

/-- Read a string-valued property. -/
def getStrField (fields : List (String × Json)) (key : String) : Option String :=
  match jsonLookup fields key with
  | some (Json.str s) => some s
  | _ => none

/-- Read a number-valued property. -/
def getNumField (fields : List (String × Json)) (key : String) : Option Int :=
  match jsonLookup fields key with
  | some (Json.num n) => some n
  | _ => none

/-- Reading a parsed token file back into a credential record, accessing the
fields the way the token manager uses them (`accessToken`, `refreshToken`,
`expiresAt` required; `clientId`, `clientSecret`, `tenantId` optional). -/
def parseTokens (j : Json) : Option StoredTokenData :=
  match j with
  | Json.obj fields =>
    match getStrField fields "accessToken", getStrField fields "refreshToken",
          getNumField fields "expiresAt" with
    | some a, some r, some e =>
      some { accessToken := a, refreshToken := r, expiresAt := e,
             clientId := getStrField fields "clientId",
             clientSecret := getStrField fields "clientSecret",
             tenantId := getStrField fields "tenantId" }
    | _, _, _ => none
  | _ => none

/-! ### Concrete fixtures used to instantiate the theorems -/

/-- A refreshable credential record that expired at epoch instant 0. -/
def sampleRecord : StoredTokenData :=
  { accessToken := "A1", refreshToken := "R1", expiresAt := 0,
    clientId := some "cid", clientSecret := some "secret", tenantId := some "tid" }

/-- A fresh process state over the given filesystem and clock. -/
def baseState (fs : FS) (time : Nat → Int) : St :=
  { time := time, tick := 0, currentTokens := none, fs := fs,
    tokenFilePath := "/home/user/.config/microsoft-todo-mcp/tokens.json",
    canonicalReads := 0, legacyReads := 0, refreshCalls := 0,
    refreshHttpCalls := 0, promptedPaths := [] }

/-- An environment with none of the consumed variables set. -/
def emptyEnv : Env :=
  { MS_TODO_ACCESS_TOKEN := none, MS_TODO_REFRESH_TOKEN := none,
    CLIENT_ID := none, CLIENT_SECRET := none, TENANT_ID := none }

/-- An environment carrying only client credentials. -/
def envCreds : Env :=
  { MS_TODO_ACCESS_TOKEN := none, MS_TODO_REFRESH_TOKEN := none,
    CLIENT_ID := some "cid", CLIENT_SECRET := some "secret", TENANT_ID := none }

/-- An environment carrying an ambient token pair and client credentials. -/
def envWithPair : Env :=
  { MS_TODO_ACCESS_TOKEN := some "EA", MS_TODO_REFRESH_TOKEN := some "ER",
    CLIENT_ID := some "cid", CLIENT_SECRET := some "secret", TENANT_ID := none }

/-! ### Helper lemmas about `refreshTokenM` -/

/-- `refreshToken` reads neither token file and counts as exactly one
refresh invocation. -/
theorem refreshTokenM_counts (env : Env) (resp : RefreshResponse) (rt : String) (s : St) :
    (refreshTokenM env resp rt s).2.canonicalReads = s.canonicalReads ∧
    (refreshTokenM env resp rt s).2.legacyReads = s.legacyReads ∧
    (refreshTokenM env resp rt s).2.refreshCalls = s.refreshCalls + 1 := by
  unfold refreshTokenM
  cases resp <;> simp only [] <;> split <;>
    simp [promptForReauth, saveTokens, dateNow]

/-- Against a failing token-endpoint response, `refreshToken` yields `null`
and leaves the filesystem, the cached record, and the clock untouched. -/
theorem refreshTokenM_failing (env : Env) (resp : RefreshResponse) (rt : String) (s : St)
    (h : resp.failing = true) :
    (refreshTokenM env resp rt s).1 = none ∧
    (refreshTokenM env resp rt s).2.fs = s.fs ∧
    (refreshTokenM env resp rt s).2.currentTokens = s.currentTokens ∧
    (refreshTokenM env resp rt s).2.tick = s.tick := by
  unfold refreshTokenM
  cases resp <;> simp [RefreshResponse.failing] at h ⊢ <;> split <;>
    simp [promptForReauth]

/-- `select401` after a 401 with a usable new token: the call is retried
once. -/
theorem select401_usable (fr : Nat → Response) (token : String) (newTok : Option String)
    (h401 : (fr 0).status = 401) (h : newTokenUsable newTok token = true) :
    select401 fr token newTok = (fr 1, 2) := by
  unfold select401
  rw [if_pos h401, if_pos h]

/-- `select401` after a 401 without a usable new token: the original
response is kept and no retry happens. -/
theorem select401_not_usable (fr : Nat → Response) (token : String) (newTok : Option String)
    (h401 : (fr 0).status = 401) (h : newTokenUsable newTok token = false) :
    select401 fr token newTok = (fr 0, 1) := by
  unfold select401
  rw [if_pos h401, if_neg (by simp [h])]

/-! ### Additional concrete fixtures -/

/-- A refreshable credential record that is still fresh at clock reading
1000 (expiry margin included). -/
def freshRecord : StoredTokenData :=
  { accessToken := "A1", refreshToken := "R1", expiresAt := 10000000,
    clientId := some "cid", clientSecret := some "secret", tenantId := some "tid" }

/-- Canonical file holds the expired `sampleRecord`; clock reads 1000. -/
def expiredCanonState : St :=
  baseState { canonical := some (FileData.record sampleRecord), legacy := none }
    (fun _ => 1000)

/-- Canonical file holds the fresh `freshRecord`; clock reads 1000. -/
def freshCanonState : St :=
  baseState { canonical := some (FileData.record freshRecord), legacy := none }
    (fun _ => 1000)

/-- Only the legacy file holds a record; clock reads 1000. -/
def legacyOnlyState : St :=
  baseState { canonical := none, legacy := some (FileData.record sampleRecord) }
    (fun _ => 1000)

/-- No token file anywhere; clock reads 1000. -/
def noFileState : St :=
  baseState { canonical := none, legacy := none } (fun _ => 1000)

/-- No token file anywhere; the clock jumps by more than an hour between the
first and second reading, so even the environment-sourced record trips the
expiry check. -/
def jumpClockState : St :=
  baseState { canonical := none, legacy := none }
    (fun k => if k = 0 then 0 else 5000000)

/-- Fetch oracle answering 401 to the first call and 200 to the retry. -/
def retryFetch : Nat → Response :=
  fun n => if n = 0 then { status := 401, body := "expired" }
           else { status := 200, body := "okbody" }

/-- Fetch oracle answering 401 to every call. -/
def always401Fetch : Nat → Response :=
  fun _ => { status := 401, body := "expired" }

/-! ### Claim theorems -/

/-- C3: when the refresh response carries `access_token` "A2" and
`expires_in` 3600 but no `refresh_token`, and the refresh started from
refresh token "R1", the resulting record has `accessToken` "A2",
`refreshToken` "R1" (retained), and `expiresAt` equal to the clock reading at
refresh time plus 3300000 ms (3600 s lifetime minus the 300 s margin). -/
theorem c3_refresh_retains_previous_refresh_token (env : Env) (s : St)
    (hid : isTruthy (jsOr (s.currentTokens.bind fun t => t.clientId) env.CLIENT_ID) = true)
    (hsec : isTruthy (jsOr (s.currentTokens.bind fun t => t.clientSecret) env.CLIENT_SECRET) = true) :
    ((refreshTokenM env (RefreshResponse.ok "A2" none 3600) "R1" s).1.map
        (fun t => (t.accessToken, t.refreshToken, t.expiresAt))) =
      some ("A2", "R1", s.time s.tick + 3300000) := by
  unfold refreshTokenM
  rw [if_neg (by simp [hid, hsec])]
  simp only [dateNow, saveTokens, jsOrStr, Option.map_some]
  refine congrArg some ?_
  refine Prod.ext rfl (Prod.ext rfl ?_)
  simp
  omega

/-- Witness for C3 at a concrete environment, state, and clock. -/
theorem c3_witness :
    ((refreshTokenM envCreds (RefreshResponse.ok "A2" none 3600) "R1"
        (baseState { canonical := none, legacy := none } (fun _ => 7))).1.map
        (fun t => (t.accessToken, t.refreshToken, t.expiresAt))) =
      some ("A2", "R1", 7 + 3300000) :=
  c3_refresh_retains_previous_refresh_token envCreds
    (baseState { canonical := none, legacy := none } (fun _ => 7))
    (by decide) (by decide)

/-- C7: whenever the response `makeGraphRequest` examines after 401 handling
is non-2xx and its body contains the substring
"MailboxNotEnabledForRESTAPI", the call surfaces the distinguished
account-capability error, not a generic HTTP error. -/
theorem c7_mailbox_body_becomes_capability_error (fr : Nat → Response)
    (token method : String) (newTok : Option String)
    (hNotOk : respOk (select401 fr token newTok).1 = false)
    (hBody : strIncludes (select401 fr token newTok).1.body
        "MailboxNotEnabledForRESTAPI" = true) :
    (makeGraphRequest fr token method newTok).1 =
      GraphOutcome.accountCapabilityError := by
  unfold makeGraphRequest
  simp [hNotOk, hBody]

/-- Witness for C7: a concrete 403 whose body carries the marker substring. -/
theorem c7_witness :
    (makeGraphRequest
        (fun _ => { status := 403, body := "err MailboxNotEnabledForRESTAPI x" })
        "tok" "GET" none).1 = GraphOutcome.accountCapabilityError :=
  c7_mailbox_body_becomes_capability_error
    (fun _ => { status := 403, body := "err MailboxNotEnabledForRESTAPI x" })
    "tok" "GET" none (by decide) (by decide)

/-- C8: `refreshToken` never throws past its boundary. When `clientId` or
`clientSecret` resolves to nothing truthy it returns `null` having changed
nothing but the invocation counter — in particular it makes no network call
and writes no file. When the token endpoint answers with a non-success
status it returns `null`, leaves the filesystem untouched, and issues the
re-authentication prompt naming the token storage path. -/
theorem c8_refresh_failure_is_graceful (env : Env) (resp : RefreshResponse)
    (rt : String) (s : St) (b : String) :
    ((isTruthy (jsOr (s.currentTokens.bind fun t => t.clientId) env.CLIENT_ID) = false ∨
      isTruthy (jsOr (s.currentTokens.bind fun t => t.clientSecret) env.CLIENT_SECRET) = false) →
      refreshTokenM env resp rt s =
        (none, { s with refreshCalls := s.refreshCalls + 1 })) ∧
    (isTruthy (jsOr (s.currentTokens.bind fun t => t.clientId) env.CLIENT_ID) = true →
     isTruthy (jsOr (s.currentTokens.bind fun t => t.clientSecret) env.CLIENT_SECRET) = true →
     resp = RefreshResponse.httpError b →
      (refreshTokenM env resp rt s).1 = none ∧
      (refreshTokenM env resp rt s).2.fs = s.fs ∧
      (refreshTokenM env resp rt s).2.promptedPaths =
        s.promptedPaths ++ [s.tokenFilePath]) := by
  constructor
  · intro h
    unfold refreshTokenM
    rw [if_pos (by rcases h with h | h <;> simp [h])]
  · intro h1 h2 hresp
    subst hresp
    unfold refreshTokenM
    rw [if_neg (by simp [h1, h2])]
    simp [promptForReauth]

/-- Witness for C8: both failure modes at concrete inputs — missing
credentials (empty environment, no cached record), and a rejected refresh
with credentials present. -/
theorem c8_witness :
    (refreshTokenM emptyEnv (RefreshResponse.httpError "bad") "R1"
        (baseState { canonical := none, legacy := none } (fun _ => 7)) =
      (none, { baseState { canonical := none, legacy := none } (fun _ => 7) with
                refreshCalls := 1 })) ∧
    ((refreshTokenM envCreds (RefreshResponse.httpError "bad") "R1"
        (baseState { canonical := none, legacy := none } (fun _ => 7))).1 = none ∧
     (refreshTokenM envCreds (RefreshResponse.httpError "bad") "R1"
        (baseState { canonical := none, legacy := none } (fun _ => 7))).2.fs =
       (baseState { canonical := none, legacy := none } (fun _ => 7)).fs ∧
     (refreshTokenM envCreds (RefreshResponse.httpError "bad") "R1"
        (baseState { canonical := none, legacy := none } (fun _ => 7))).2.promptedPaths =
       (baseState { canonical := none, legacy := none } (fun _ => 7)).promptedPaths ++
         [(baseState { canonical := none, legacy := none } (fun _ => 7)).tokenFilePath]) :=
  ⟨(c8_refresh_failure_is_graceful emptyEnv (RefreshResponse.httpError "bad") "R1"
      (baseState { canonical := none, legacy := none } (fun _ => 7)) "bad").1
      (Or.inl (by decide)),
   (c8_refresh_failure_is_graceful envCreds (RefreshResponse.httpError "bad") "R1"
      (baseState { canonical := none, legacy := none } (fun _ => 7)) "bad").2
      (by decide) (by decide) rfl⟩

/-- C1 counterexample: with a canonical record expired at the time of the
call and a token endpoint that rejects the refresh, `getTokens()` does
attempt exactly one refresh, but then returns the stale record itself — not
`null` as the claim states. -/
theorem c1_counterexample :
    (getTokens emptyEnv (RefreshResponse.httpError "invalid_grant")
        expiredCanonState).2.refreshCalls = 1 ∧
    (getTokens emptyEnv (RefreshResponse.httpError "invalid_grant")
        expiredCanonState).1 = some sampleRecord ∧
    (getTokens emptyEnv (RefreshResponse.httpError "invalid_grant")
        expiredCanonState).1 ≠ none :=
  ⟨by decide, by decide, by decide⟩

/-- C1 (amended): for every credential record resolved from the canonical
store whose `expiresAt` lies in the past at the expiry check, `getTokens()`
attempts exactly one refresh before returning, and when that refresh fails
it returns the stale expired record itself rather than null. -/
theorem c1_expired_record_exactly_one_refresh (env : Env) (resp : RefreshResponse)
    (s : St) (r : StoredTokenData) (henv : envPair env = none)
    (hc : s.fs.canonical = some (FileData.record r))
    (hexp : s.time s.tick > r.expiresAt) :
    (getTokens env resp s).2.refreshCalls = s.refreshCalls + 1 ∧
    (resp.failing = true → (getTokens env resp s).1 = some r) := by
  unfold getTokens
  rw [henv, hc]
  simp only [dateNow]
  rw [if_pos (by simpa using hexp)]
  constructor
  · split
    next refreshed s2 heq =>
      rw [← heq]
      exact (refreshTokenM_counts env resp r.refreshToken _).2.2
    next s2 heq =>
      show ((none : Option StoredTokenData), s2).2.refreshCalls = s.refreshCalls + 1
      rw [← heq]
      exact (refreshTokenM_counts env resp r.refreshToken _).2.2
  · intro hfail
    split
    next refreshed s2 heq =>
      have hfst := congrArg Prod.fst heq
      rw [(refreshTokenM_failing env resp r.refreshToken _ hfail).1] at hfst
      simp at hfst
    next s2 heq =>
      have h2 := congrArg St.currentTokens (congrArg Prod.snd heq)
      rw [(refreshTokenM_failing env resp r.refreshToken _ hfail).2.2.1] at h2
      simp at h2
      simpa using h2.symm

/-- Witness for the amended C1 at a concrete expired canonical record and a
rejecting token endpoint. -/
theorem c1_witness :
    (getTokens emptyEnv (RefreshResponse.httpError "invalid_grant")
        expiredCanonState).2.refreshCalls = expiredCanonState.refreshCalls + 1 ∧
    (getTokens emptyEnv (RefreshResponse.httpError "invalid_grant")
        expiredCanonState).1 = some sampleRecord :=
  ⟨(c1_expired_record_exactly_one_refresh emptyEnv
      (RefreshResponse.httpError "invalid_grant") expiredCanonState sampleRecord
      (by decide) (by decide) (by decide)).1,
   (c1_expired_record_exactly_one_refresh emptyEnv
      (RefreshResponse.httpError "invalid_grant") expiredCanonState sampleRecord
      (by decide) (by decide) (by decide)).2 (by decide)⟩

/-- C2 counterexample: a first response of 401 whose body contains
"MailboxNotEnabledForRESTAPI", with the token manager returning the same
token, is surfaced as the distinguished account-capability error — not as
the generic HTTP error the claim states for the same-token case. -/
theorem c2_counterexample :
    (makeGraphRequest (fun _ => { status := 401, body := "MailboxNotEnabledForRESTAPI" })
        "tok" "GET" (some "tok")).1 = GraphOutcome.accountCapabilityError ∧
    (makeGraphRequest (fun _ => { status := 401, body := "MailboxNotEnabledForRESTAPI" })
        "tok" "GET" (some "tok")).1 ≠
      GraphOutcome.httpError 401 "MailboxNotEnabledForRESTAPI" :=
  ⟨by decide, by decide⟩

/-- C2 (amended): on a 401 first response, the client asks the Token Manager
for a token again; with a usable different token it retries exactly once
(two HTTP calls) and returns the retried response's body on success; with
the same token (or none) it does not retry (one HTTP call) and surfaces the
original 401 as the generic HTTP error — unless the 401 body contains
"MailboxNotEnabledForRESTAPI", in which case the distinguished
account-capability error is surfaced instead; in no case is a third HTTP
call made. -/
theorem c2_401_retry_behavior (fr : Nat → Response) (token method : String)
    (newTok : Option String) (h401 : (fr 0).status = 401) :
    (makeGraphRequest fr token method newTok).2 ≤ 2 ∧
    (newTokenUsable newTok token = true →
      (makeGraphRequest fr token method newTok).2 = 2 ∧
      (respOk (fr 1) = true → method ≠ "DELETE" →
        (makeGraphRequest fr token method newTok).1 = GraphOutcome.success (fr 1).body)) ∧
    (newTokenUsable newTok token = false →
      (makeGraphRequest fr token method newTok).2 = 1 ∧
      (makeGraphRequest fr token method newTok).1 =
        (if strIncludes (fr 0).body "MailboxNotEnabledForRESTAPI" = true then
          GraphOutcome.accountCapabilityError
        else GraphOutcome.httpError (fr 0).status (fr 0).body)) := by
  have hNok : respOk (fr 0) = false := by simp [respOk, h401]
  cases hNU : newTokenUsable newTok token
  case false =>
    have hreq : makeGraphRequest fr token method newTok =
        ((if strIncludes (fr 0).body "MailboxNotEnabledForRESTAPI" = true then
            GraphOutcome.accountCapabilityError
          else GraphOutcome.httpError (fr 0).status (fr 0).body), 1) := by
      simp only [makeGraphRequest, select401_not_usable fr token newTok h401 hNU]
      rw [if_pos hNok]
      split <;> simp_all
    rw [hreq]
    exact ⟨by simp, by simp [hNU], fun _ => ⟨rfl, rfl⟩⟩
  case true =>
    have hcalls : (makeGraphRequest fr token method newTok).2 = 2 := by
      simp only [makeGraphRequest, select401_usable fr token newTok h401 hNU]
      split
      · split <;> simp
      · split <;> simp
    refine ⟨by omega, fun _ => ⟨hcalls, fun hOk hD => ?_⟩, by simp [hNU]⟩
    simp only [makeGraphRequest, select401_usable fr token newTok h401 hNU]
    rw [if_neg (by simp [hOk]), if_neg hD]

/-- Witness for the amended C2: a 401 answered by a 200 retry with a new
token returns the 200 body in exactly two calls; a 401 kept because the
manager returned the same token surfaces the generic HTTP error after
exactly one call. -/
theorem c2_witness :
    (makeGraphRequest retryFetch "T" "GET" (some "T2")).2 = 2 ∧
    (makeGraphRequest retryFetch "T" "GET" (some "T2")).1 = GraphOutcome.success "okbody" ∧
    (makeGraphRequest always401Fetch "T" "GET" (some "T")).2 = 1 ∧
    (makeGraphRequest always401Fetch "T" "GET" (some "T")).1 =
      GraphOutcome.httpError 401 "expired" :=
  ⟨((c2_401_retry_behavior retryFetch "T" "GET" (some "T2") (by decide)).2.1
      (by decide)).1,
   ((c2_401_retry_behavior retryFetch "T" "GET" (some "T2") (by decide)).2.1
      (by decide)).2 (by decide) (by decide),
   ((c2_401_retry_behavior always401Fetch "T" "GET" (some "T") (by decide)).2.2
      (by decide)).1,
   (((c2_401_retry_behavior always401Fetch "T" "GET" (some "T") (by decide)).2.2
      (by decide)).2).trans (by decide)⟩

/-- C4: when the environment pair is present (and a canonical record also
exists), `getTokens()` resolves from the environment exclusively: neither
token file is read, the result counts as found, and in the normal case
(no clock jump past the assumed one-hour lifetime) it is exactly the
environment-built record. -/
theorem c4_env_pair_used_exclusively (env : Env) (resp : RefreshResponse) (s : St)
    (a r : String) (cr : StoredTokenData)
    (henv : envPair env = some (a, r))
    (_hc : s.fs.canonical = some (FileData.record cr)) :
    (getTokens env resp s).2.canonicalReads = s.canonicalReads ∧
    (getTokens env resp s).2.legacyReads = s.legacyReads ∧
    (getTokens env resp s).1.isSome = true ∧
    (¬ s.time (s.tick + 1) > s.time s.tick + 3600 * 1000 →
      (getTokens env resp s).1 =
        some { accessToken := a, refreshToken := r,
               expiresAt := s.time s.tick + 3600 * 1000 }) := by
  have key : (getTokens env resp s).2.canonicalReads = s.canonicalReads ∧
      (getTokens env resp s).2.legacyReads = s.legacyReads ∧
      (getTokens env resp s).1.isSome = true := by
    unfold getTokens
    rw [henv]
    simp only [dateNow]
    split
    · split
      next refreshed s2 heq =>
        have h1 := congrArg St.canonicalReads (congrArg Prod.snd heq)
        rw [(refreshTokenM_counts env resp r _).1] at h1
        have h2 := congrArg St.legacyReads (congrArg Prod.snd heq)
        rw [(refreshTokenM_counts env resp r _).2.1] at h2
        simp at h1 h2
        exact ⟨h1.symm, h2.symm, rfl⟩
      next s2 heq =>
        have h1 := congrArg St.canonicalReads (congrArg Prod.snd heq)
        rw [(refreshTokenM_counts env resp r _).1] at h1
        have h2 := congrArg St.legacyReads (congrArg Prod.snd heq)
        rw [(refreshTokenM_counts env resp r _).2.1] at h2
        simp at h1 h2
        exact ⟨h1.symm, h2.symm, rfl⟩
    · exact ⟨rfl, rfl, rfl⟩
  refine ⟨key.1, key.2.1, key.2.2, fun hval => ?_⟩
  unfold getTokens
  rw [henv]
  simp only [dateNow]
  rw [if_neg (by simpa using hval)]

/-- Witness for C4 with the environment pair and a canonical record both
present. -/
theorem c4_witness :
    (getTokens envWithPair (RefreshResponse.httpError "bad")
        expiredCanonState).2.canonicalReads = expiredCanonState.canonicalReads ∧
    (getTokens envWithPair (RefreshResponse.httpError "bad")
        expiredCanonState).2.legacyReads = expiredCanonState.legacyReads ∧
    (getTokens envWithPair (RefreshResponse.httpError "bad")
        expiredCanonState).1.isSome = true ∧
    (getTokens envWithPair (RefreshResponse.httpError "bad")
        expiredCanonState).1 =
      some { accessToken := "EA", refreshToken := "ER",
             expiresAt := expiredCanonState.time expiredCanonState.tick + 3600 * 1000 } :=
  ⟨(c4_env_pair_used_exclusively envWithPair (RefreshResponse.httpError "bad")
      expiredCanonState "EA" "ER" sampleRecord (by decide) (by decide)).1,
   (c4_env_pair_used_exclusively envWithPair (RefreshResponse.httpError "bad")
      expiredCanonState "EA" "ER" sampleRecord (by decide) (by decide)).2.1,
   (c4_env_pair_used_exclusively envWithPair (RefreshResponse.httpError "bad")
      expiredCanonState "EA" "ER" sampleRecord (by decide) (by decide)).2.2.1,
   (c4_env_pair_used_exclusively envWithPair (RefreshResponse.httpError "bad")
      expiredCanonState "EA" "ER" sampleRecord (by decide) (by decide)).2.2.2
      (by decide)⟩

/-- C5: a persisted canonical record whose `expiresAt` is more than the
safety margin in the future is returned unchanged in all fields, with no
refresh invocation and no network call. -/
theorem c5_fresh_record_returned_unchanged (env : Env) (resp : RefreshResponse)
    (s : St) (r : StoredTokenData) (henv : envPair env = none)
    (hc : s.fs.canonical = some (FileData.record r))
    (hfresh : r.expiresAt > s.time s.tick + 300000) :
    (getTokens env resp s).1 = some r ∧
    (getTokens env resp s).2.refreshCalls = s.refreshCalls ∧
    (getTokens env resp s).2.refreshHttpCalls = s.refreshHttpCalls := by
  unfold getTokens
  rw [henv, hc]
  simp only [dateNow]
  rw [if_neg (by simp; omega)]
  simp

/-- Witness for C5 at a concrete fresh canonical record. -/
theorem c5_witness :
    (getTokens emptyEnv (RefreshResponse.httpError "bad") freshCanonState).1 =
      some freshRecord ∧
    (getTokens emptyEnv (RefreshResponse.httpError "bad")
        freshCanonState).2.refreshCalls = freshCanonState.refreshCalls ∧
    (getTokens emptyEnv (RefreshResponse.httpError "bad")
        freshCanonState).2.refreshHttpCalls = freshCanonState.refreshHttpCalls :=
  c5_fresh_record_returned_unchanged emptyEnv (RefreshResponse.httpError "bad")
    freshCanonState freshRecord (by decide) (by decide) (by decide)

/-- C6: with a record only at the legacy path, `getTokens()` writes it to
the canonical path, returns it as-is — without consulting the clock, so
without any expiry check or refresh — and leaves the legacy file itself
unmodified; the canonical path afterwards holds the same record. -/
theorem c6_legacy_migration (env : Env) (resp : RefreshResponse) (s : St)
    (r : StoredTokenData) (henv : envPair env = none)
    (hc : s.fs.canonical = none)
    (hl : s.fs.legacy = some (FileData.record r)) :
    (getTokens env resp s).1 = some r ∧
    (getTokens env resp s).2.fs.canonical = some (FileData.record r) ∧
    (getTokens env resp s).2.fs.legacy = s.fs.legacy ∧
    (getTokens env resp s).2.refreshCalls = s.refreshCalls ∧
    (getTokens env resp s).2.tick = s.tick := by
  unfold getTokens getTokensLegacy
  rw [henv, hc, hl]
  simp [saveTokens, hl]

/-- Witness for C6 at a concrete legacy-only record. -/
theorem c6_witness :
    (getTokens emptyEnv (RefreshResponse.httpError "bad") legacyOnlyState).1 =
      some sampleRecord ∧
    (getTokens emptyEnv (RefreshResponse.httpError "bad")
        legacyOnlyState).2.fs.canonical = some (FileData.record sampleRecord) ∧
    (getTokens emptyEnv (RefreshResponse.httpError "bad")
        legacyOnlyState).2.fs.legacy = legacyOnlyState.fs.legacy ∧
    (getTokens emptyEnv (RefreshResponse.httpError "bad")
        legacyOnlyState).2.refreshCalls = legacyOnlyState.refreshCalls ∧
    (getTokens emptyEnv (RefreshResponse.httpError "bad")
        legacyOnlyState).2.tick = legacyOnlyState.tick :=
  c6_legacy_migration emptyEnv (RefreshResponse.httpError "bad") legacyOnlyState
    sampleRecord (by decide) (by decide) (by decide)

/-- C9: round trip — serializing a credential record and reading it back
yields the record equal in all six fields; `saveTokens(record)` leaves the
record at the canonical path, and a following `getTokens()` (environment
empty, record not yet expired) returns it unchanged. -/
theorem c9_save_load_round_trip (env : Env) (resp : RefreshResponse) (s : St)
    (t : StoredTokenData) (henv : envPair env = none)
    (hfresh : ¬ s.time s.tick > t.expiresAt) :
    parseTokens (serializeTokens t) = some t ∧
    (saveTokens t s).fs.canonical = some (FileData.record t) ∧
    (getTokens env resp (saveTokens t s)).1 = some t := by
  refine ⟨?_, rfl, ?_⟩
  · rcases t with ⟨a, r, e, cid, csec, tid⟩
    rcases cid with _ | c1 <;> rcases csec with _ | c2 <;> rcases tid with _ | c3 <;>
      simp [serializeTokens, parseTokens, getStrField, getNumField, jsonLookup]
  · unfold getTokens
    rw [henv]
    simp only [saveTokens, dateNow]
    rw [if_neg (by simpa using hfresh)]

/-- Witness for C9 at a concrete record with all optional fields present. -/
theorem c9_witness :
    parseTokens (serializeTokens freshRecord) = some freshRecord ∧
    (saveTokens freshRecord noFileState).fs.canonical =
      some (FileData.record freshRecord) ∧
    (getTokens emptyEnv (RefreshResponse.httpError "bad")
        (saveTokens freshRecord noFileState)).1 = some freshRecord :=
  c9_save_load_round_trip emptyEnv (RefreshResponse.httpError "bad") noFileState
    freshRecord (by decide) (by decide)

/-- C10 (implicit): when the resolved record — canonical-store or
environment-sourced — is expired and the refresh fails, `getTokens()`
returns the stale expired record itself rather than null, and the failed
refresh leaves both the persisted file and the cached record untouched. -/
theorem c10_failed_refresh_returns_stale (env : Env) (resp : RefreshResponse)
    (s : St) (r : StoredTokenData) (a rt : String) :
    ((envPair env = none → s.fs.canonical = some (FileData.record r) →
      s.time s.tick > r.expiresAt → resp.failing = true →
      (getTokens env resp s).1 = some r ∧
      (getTokens env resp s).2.currentTokens = some r ∧
      (getTokens env resp s).2.fs = s.fs) ∧
     (envPair env = some (a, rt) →
      s.time (s.tick + 1) > s.time s.tick + 3600 * 1000 → resp.failing = true →
      (getTokens env resp s).1 =
        some { accessToken := a, refreshToken := rt,
               expiresAt := s.time s.tick + 3600 * 1000 } ∧
      (getTokens env resp s).2.fs = s.fs ∧
      (getTokens env resp s).2.currentTokens = s.currentTokens)) := by
  constructor
  · intro henv hc hexp hfail
    unfold getTokens
    rw [henv, hc]
    simp only [dateNow]
    rw [if_pos (by simpa using hexp)]
    split
    next refreshed s2 heq =>
      have hfst := congrArg Prod.fst heq
      rw [(refreshTokenM_failing env resp r.refreshToken _ hfail).1] at hfst
      simp at hfst
    next s2 heq =>
      have hcur := congrArg St.currentTokens (congrArg Prod.snd heq)
      rw [(refreshTokenM_failing env resp r.refreshToken _ hfail).2.2.1] at hcur
      have hfs := congrArg St.fs (congrArg Prod.snd heq)
      rw [(refreshTokenM_failing env resp r.refreshToken _ hfail).2.1] at hfs
      simp at hcur hfs
      exact ⟨by simpa using hcur.symm, by simpa using hcur.symm, by simpa using hfs.symm⟩
  · intro henv hexp hfail
    unfold getTokens
    rw [henv]
    simp only [dateNow]
    rw [if_pos (by simpa using hexp)]
    split
    next refreshed s2 heq =>
      have hfst := congrArg Prod.fst heq
      rw [(refreshTokenM_failing env resp rt _ hfail).1] at hfst
      simp at hfst
    next s2 heq =>
      have hcur := congrArg St.currentTokens (congrArg Prod.snd heq)
      rw [(refreshTokenM_failing env resp rt _ hfail).2.2.1] at hcur
      have hfs := congrArg St.fs (congrArg Prod.snd heq)
      rw [(refreshTokenM_failing env resp rt _ hfail).2.1] at hfs
      simp at hcur hfs
      exact ⟨rfl, by simpa using hfs.symm, by simpa using hcur.symm⟩

/-- Witness for C10: the canonical-store case at an expired record with a
rejected refresh, and the environment case at a clock that jumps past the
assumed one-hour lifetime with a rejected refresh. -/
theorem c10_witness :
    ((getTokens emptyEnv (RefreshResponse.httpError "bad") expiredCanonState).1 =
        some sampleRecord ∧
     (getTokens emptyEnv (RefreshResponse.httpError "bad")
        expiredCanonState).2.currentTokens = some sampleRecord ∧
     (getTokens emptyEnv (RefreshResponse.httpError "bad")
        expiredCanonState).2.fs = expiredCanonState.fs) ∧
    ((getTokens envWithPair (RefreshResponse.httpError "bad") jumpClockState).1 =
        some { accessToken := "EA", refreshToken := "ER",
               expiresAt := jumpClockState.time jumpClockState.tick + 3600 * 1000 } ∧
     (getTokens envWithPair (RefreshResponse.httpError "bad")
        jumpClockState).2.fs = jumpClockState.fs ∧
     (getTokens envWithPair (RefreshResponse.httpError "bad")
        jumpClockState).2.currentTokens = jumpClockState.currentTokens) :=
  ⟨(c10_failed_refresh_returns_stale emptyEnv (RefreshResponse.httpError "bad")
      expiredCanonState sampleRecord "EA" "ER").1
      (by decide) (by decide) (by decide) (by decide),
   (c10_failed_refresh_returns_stale envWithPair (RefreshResponse.httpError "bad")
      jumpClockState sampleRecord "EA" "ER").2
      (by decide) (by decide) (by decide)⟩
